import Mathlib

/-!
Shallow embedding of `src/myDB.py`: an in-memory key-value store with a
stack of transaction snapshots (`xcts`), a parallel stack of value-count
maps (`valueCounts`) and an `inTransac` flag.  Python dicts are modelled
as association lists with in-place update; a key explicitly unset is
mapped to the sentinel `none`, exactly as the Python code stores `None`.
Python exceptions (`KeyError` from `self.currXct[name]` /
`self.currValCount[oldVal]`, `IndexError` from `self.xcts[0]` on an empty
list) are modelled with `Except`.
-/

namespace MyDB

/-- A Python dict value in `currXct`: `none` is the explicit unset sentinel. -/
abbrev Snap := List (String × Option String)

/-- A Python dict `value -> count`; counts can go negative, hence `Int`. -/
abbrev Counts := List (String × Int)

/-- `d[k]` lookup in a Python dict modelled as an association list. -/
def dlookup {β : Type} : List (String × β) → String → Option β
  | [], _ => none
  | p :: ps, k => if p.1 = k then some p.2 else dlookup ps k

/-- `d[k] = v` assignment in a Python dict: replace in place, else append. -/
def dinsert {β : Type} : List (String × β) → String → β → List (String × β)
  | [], k, v => [(k, v)]
  | p :: ps, k, v => if p.1 = k then (k, v) :: ps else p :: dinsert ps k v

/-- The number of keys of the snapshot whose mapped value equals `v`. -/
def countVal (m : Snap) (v : String) : Nat :=
  (m.filter (fun p => decide (p.2 = some v))).length

/-- Python exceptions that the reference code can raise. -/
inductive PyErr : Type
  | keyError
  | indexError
deriving DecidableEq, Repr

/-- The state of the `DB` object of `myDB.py`: the stack of transaction
snapshots (index 0 = committed base, last = top), the parallel stack of
value-count dicts, and the `inTransac` flag.  The aliases `currXct` /
`currValCount` are recomputed by `performCommand` before each command, so
they are not part of the state here. -/
structure DB : Type where
  xcts : List Snap
  valueCounts : List Counts
  inTransac : Bool
deriving DecidableEq, Repr

/-- `DB.__init__`: one empty committed layer on each stack. -/
def DB.init : DB := ⟨[[]], [[]], false⟩

/-- `DB.set(name, value)` acting on the current layer: if `name` already
maps to an `oldVal` with `oldVal != value` and `oldVal` is a key of the
count dict, decrement that count; then assign `name -> value` and
increment (or create at 1) the count of `value`. -/
def set (m : Snap) (c : Counts) (name value : String) : Snap × Counts :=
  let c1 :=
    match dlookup m name with
    | some oldVal =>
        if oldVal ≠ some value then
          match oldVal with
          | some s =>
              match dlookup c s with
              | some n => dinsert c s (n - 1)
              | none => c
          | none => c
        else c
    | none => c
  let m1 := dinsert m name (some value)
  let c2 :=
    match dlookup c1 value with
    | some n => dinsert c1 value (n + 1)
    | none => dinsert c1 value 1
  (m1, c2)

/-- `DB.get(name)` acting on the current layer: the text written to
stdout — the value when `name` maps to a real value, `NULL` when it is
absent or maps to the unset sentinel. -/
def get (m : Snap) (name : String) : String :=
  match dlookup m name with
  | some (some v) => v
  | some none => "NULL"
  | none => "NULL"

/-- `DB.unset(name)` acting on the current layer: `self.currXct[name]`
raises `KeyError` when `name` is absent; otherwise `name` is set to the
sentinel and, when the old value was not the sentinel, its count is
decremented (`self.currValCount[oldVal] -= 1`, a `KeyError` if absent). -/
def unset (m : Snap) (c : Counts) (name : String) :
    Except PyErr (Snap × Counts) :=
  match dlookup m name with
  | none => .error .keyError
  | some oldVal =>
      let m1 := dinsert m name none
      match oldVal with
      | none => .ok (m1, c)
      | some s =>
          match dlookup c s with
          | none => .error .keyError
          | some n => .ok (m1, dinsert c s (n - 1))

/-- `DB.numEqualTo(value)` acting on the current layer: the count-dict
entry for `value`, or `0` when absent. -/
def numEqualTo (c : Counts) (value : String) : Int :=
  (dlookup c value).getD 0

/-- The commands dispatched by `performCommand` that the claims concern. -/
inductive Cmd : Type
  | set (name value : String)
  | get (name : String)
  | unset (name : String)
  | numEqualTo (value : String)
  | begin
  | rollback
  | commit
deriving DecidableEq, Repr

/-- The current-layer computation at the start of `performCommand`:
`self.xcts[0]` / `self.valueCounts[0]` when not in a transaction (an
`IndexError` when the list is empty), else `self.xcts[-1]` /
`self.valueCounts[-1]`. -/
def curLayer (db : DB) : Option (Snap × Counts) :=
  if db.inTransac then
    match db.xcts.getLast?, db.valueCounts.getLast? with
    | some m, some c => some (m, c)
    | _, _ => none
  else
    match db.xcts.head?, db.valueCounts.head? with
    | some m, some c => some (m, c)
    | _, _ => none

/-- Writing the mutated current layer back into the stacks: position 0
when not in a transaction, the last position otherwise (in Python the
mutation happens through the `currXct` / `currValCount` aliases). -/
def writeCur (db : DB) (m : Snap) (c : Counts) : DB :=
  if db.inTransac then
    { db with xcts := db.xcts.dropLast ++ [m],
              valueCounts := db.valueCounts.dropLast ++ [c] }
  else
    { db with xcts := db.xcts.set 0 m,
              valueCounts := db.valueCounts.set 0 c }

/-- One `performCommand` dispatch.  `begin` copies the top of each stack
and pushes it, setting `inTransac`; `rollback` prints `NO TRANSACTION`
when `inTransac` is false, else pops both stacks and clears `inTransac`
only when the popped stack became *empty* (`if not self.xcts`); `commit`
prints `NO TRANSACTION` when `inTransac` is false, else collapses both
stacks to a copy of the current layer, clearing `inTransac` in both
branches (line 208 is outside the `else`).  The returned list holds the
lines written to stdout. -/
def DB.step (db : DB) (cmd : Cmd) : Except PyErr (DB × List String) :=
  match cmd with
  | .begin =>
      match curLayer db with
      | none => .error .indexError
      | some _ =>
          match db.xcts.getLast?, db.valueCounts.getLast? with
          | some mt, some ct =>
              .ok (⟨db.xcts ++ [mt], db.valueCounts ++ [ct], true⟩, [])
          | _, _ => .error .indexError
  | .rollback =>
      match curLayer db with
      | none => .error .indexError
      | some _ =>
          if db.inTransac then
            let x := db.xcts.dropLast
            .ok (⟨x, db.valueCounts.dropLast, !x.isEmpty⟩, [])
          else
            .ok (db, ["NO TRANSACTION"])
  | .commit =>
      match curLayer db with
      | none => .error .indexError
      | some (m, c) =>
          if db.inTransac then
            .ok (⟨[m], [c], false⟩, [])
          else
            .ok ({ db with inTransac := false }, ["NO TRANSACTION"])
  | .set name value =>
      match curLayer db with
      | none => .error .indexError
      | some (m, c) =>
          let mc := set m c name value
          .ok (writeCur db mc.1 mc.2, [])
  | .get name =>
      match curLayer db with
      | none => .error .indexError
      | some (m, _) => .ok (db, [get m name])
  | .unset name =>
      match curLayer db with
      | none => .error .indexError
      | some (m, c) =>
          match unset m c name with
          | .error e => .error e
          | .ok mc => .ok (writeCur db mc.1 mc.2, [])
  | .numEqualTo value =>
      match curLayer db with
      | none => .error .indexError
      | some (_, c) => .ok (db, [toString (numEqualTo c value)])

/-- Running a command list from a state, accumulating the stdout lines;
an uncaught exception aborts the whole run, as in the Python main loop. -/
def runFrom (db : DB) : List Cmd → Except PyErr (DB × List String)
  | [] => .ok (db, [])
  | cmd :: rest =>
      match db.step cmd with
      | .error e => .error e
      | .ok (db1, out1) =>
          match runFrom db1 rest with
          | .error e => .error e
          | .ok (db2, out2) => .ok (db2, out1 ++ out2)

/-- Running a command list from the freshly constructed database. -/
def runCmds (cs : List Cmd) : Except PyErr (DB × List String) :=
  runFrom DB.init cs

/-- The commands that mutate data inside a layer: `SET` and `UNSET`. -/
def isDataMut : Cmd → Bool
  | .set _ _ => true
  | .unset _ => true
  | _ => false

instance {ε α : Type} [DecidableEq ε] [DecidableEq α] : DecidableEq (Except ε α) := fun a b =>
  match a, b with
  | .error e, .error f =>
      if h : e = f then isTrue (by rw [h]) else isFalse (fun hc => h (Except.error.inj hc))
  | .ok x, .ok y =>
      if h : x = y then isTrue (by rw [h]) else isFalse (fun hc => h (Except.ok.inj hc))
  | .error _, .ok _ => isFalse (fun hc => Except.noConfusion hc)
  | .ok _, .error _ => isFalse (fun hc => Except.noConfusion hc)

/-! ### Basic lemmas about the dict model -/

theorem dlookup_dinsert_self {β : Type} (m : List (String × β)) (k : String) (v : β) :
    dlookup (dinsert m k v) k = some v := by
  induction m with
  | nil => simp [dinsert, dlookup]
  | cons p ps ih =>
      by_cases h : p.1 = k
      · simp [dinsert, dlookup, h]
      · simp [dinsert, dlookup, h, ih]

theorem set_fst (m : Snap) (c : Counts) (k v : String) :
    (set m c k v).1 = dinsert m k (some v) := rfl

theorem get_dinsert_self (m : Snap) (k v : String) :
    get (dinsert m k (some v)) k = v := by
  unfold get
  rw [dlookup_dinsert_self]

/-! ### Evaluation lemmas for one `performCommand` dispatch -/

theorem curLayer_false (m : Snap) (X : List Snap) (c : Counts) (V : List Counts) :
    curLayer ⟨m :: X, c :: V, false⟩ = some (m, c) := rfl

theorem curLayer_true (X : List Snap) (V : List Counts) (mt : Snap) (ct : Counts)
    (hx : X.getLast? = some mt) (hv : V.getLast? = some ct) :
    curLayer ⟨X, V, true⟩ = some (mt, ct) := by
  simp [curLayer, hx, hv]

theorem step_set (db : DB) (m : Snap) (c : Counts) (hcl : curLayer db = some (m, c))
    (k v : String) :
    db.step (Cmd.set k v) = .ok (writeCur db (set m c k v).1 (set m c k v).2, []) := by
  unfold DB.step
  rw [hcl]

theorem step_get (db : DB) (m : Snap) (c : Counts) (hcl : curLayer db = some (m, c))
    (k : String) :
    db.step (Cmd.get k) = .ok (db, [get m k]) := by
  unfold DB.step
  rw [hcl]

theorem step_numEqualTo (db : DB) (m : Snap) (c : Counts)
    (hcl : curLayer db = some (m, c)) (v : String) :
    db.step (Cmd.numEqualTo v) = .ok (db, [toString (numEqualTo c v)]) := by
  unfold DB.step
  rw [hcl]

theorem step_unset (db : DB) (m : Snap) (c : Counts) (hcl : curLayer db = some (m, c))
    (k : String) :
    db.step (Cmd.unset k) =
      match unset m c k with
      | .error e => .error e
      | .ok mc => .ok (writeCur db mc.1 mc.2, []) := by
  unfold DB.step
  rw [hcl]

theorem step_begin (db : DB) (m : Snap) (c : Counts) (mt : Snap) (ct : Counts)
    (hcl : curLayer db = some (m, c))
    (hmt : db.xcts.getLast? = some mt) (hct : db.valueCounts.getLast? = some ct) :
    db.step Cmd.begin = .ok (⟨db.xcts ++ [mt], db.valueCounts ++ [ct], true⟩, []) := by
  unfold DB.step
  rw [hcl, hmt, hct]

theorem step_rollback_pop (db : DB) (m : Snap) (c : Counts)
    (hcl : curLayer db = some (m, c)) (ht : db.inTransac = true) :
    db.step Cmd.rollback =
      .ok (⟨db.xcts.dropLast, db.valueCounts.dropLast, !db.xcts.dropLast.isEmpty⟩, []) := by
  unfold DB.step
  rw [hcl, ht]
  rfl

theorem step_rollback_err (db : DB) (m : Snap) (c : Counts)
    (hcl : curLayer db = some (m, c)) (ht : db.inTransac = false) :
    db.step Cmd.rollback = .ok (db, ["NO TRANSACTION"]) := by
  unfold DB.step
  rw [hcl, ht]
  rfl

theorem step_commit_flatten (db : DB) (m : Snap) (c : Counts)
    (hcl : curLayer db = some (m, c)) (ht : db.inTransac = true) :
    db.step Cmd.commit = .ok (⟨[m], [c], false⟩, []) := by
  unfold DB.step
  rw [hcl, ht]
  rfl

theorem step_commit_err (db : DB) (m : Snap) (c : Counts)
    (hcl : curLayer db = some (m, c)) (ht : db.inTransac = false) :
    db.step Cmd.commit = .ok ({ db with inTransac := false }, ["NO TRANSACTION"]) := by
  unfold DB.step
  rw [hcl, ht]
  rfl

theorem runFrom_cons_ok (db : DB) (cmd : Cmd) (rest : List Cmd) (db1 db2 : DB)
    (out1 out2 : List String)
    (h1 : db.step cmd = .ok (db1, out1)) (h2 : runFrom db1 rest = .ok (db2, out2)) :
    runFrom db (cmd :: rest) = .ok (db2, out1 ++ out2) := by
  simp [runFrom, h1, h2]

/-! ### Claim theorems (concrete scenarios) -/

/-- Claim C1: the count invariant FAILS on the code.  From the fresh store,
`SET a 10; SET a 10; NUMEQUALTO 10` outputs `2`, yet the current snapshot
holds exactly one key whose value is `10` — `numEqualTo` does not report
the number of keys mapped to the value, refuting the invariant. -/
theorem numEqualTo_count_invariant_violation :
    runCmds [Cmd.set "a" "10", Cmd.set "a" "10", Cmd.numEqualTo "10"] =
      .ok (⟨[[("a", some "10")]], [[("10", 2)]], false⟩, ["2"]) ∧
    countVal [("a", some "10")] "10" = 1 := by
  refine ⟨by decide, by decide⟩

/-- Claim C2: the stack/flag invariant FAILS on the code.  After
`BEGIN; ROLLBACK` the snapshot stack has length 1 yet `inTransac` is
still `true` (refuting "length 1 iff no open transaction"), and after
`BEGIN; ROLLBACK; ROLLBACK` the snapshot stack has length 0 (refuting
"length at least 1"). -/
theorem stack_length_flag_desync :
    (runCmds [Cmd.begin, Cmd.rollback] = .ok (⟨[[]], [[]], true⟩, []) ∧
      ([[]] : List Snap).length = 1) ∧
    (runCmds [Cmd.begin, Cmd.rollback, Cmd.rollback] = .ok (⟨[], [], false⟩, []) ∧
      ([] : List Snap).length = 0) := by
  refine ⟨⟨by decide, rfl⟩, ⟨by decide, rfl⟩⟩

/-- Claim C3 FAILS on the code.  After `BEGIN; ROLLBACK` the store is not put
in the no-transaction state, so the second `ROLLBACK` of
`BEGIN; ROLLBACK; ROLLBACK` prints nothing (the total output is `[]`, no
`NO TRANSACTION`) and pops the base layer, leaving both stacks empty; any
further command then raises `IndexError`. -/
theorem rollback_depth_one_pops_base :
    runCmds [Cmd.begin, Cmd.rollback, Cmd.rollback] = .ok (⟨[], [], false⟩, []) ∧
    runCmds [Cmd.begin, Cmd.rollback, Cmd.rollback, Cmd.rollback] =
      .error PyErr.indexError := by
  refine ⟨by decide, by decide⟩

/-- Claim C6: from the fresh store, `BEGIN; SET a 10; BEGIN; SET a 20; COMMIT;
GET a; ROLLBACK` outputs `20` for the `GET` and `NO TRANSACTION` for the
final `ROLLBACK`; after the commit the snapshot stack is the single
committed layer `[a -> 20]` and `inTransac` is `false`. -/
theorem commit_flattens_stack :
    runCmds [Cmd.begin, Cmd.set "a" "10", Cmd.begin, Cmd.set "a" "20",
      Cmd.commit, Cmd.get "a", Cmd.rollback] =
      .ok (⟨[[("a", some "20")]], [[("10", 0), ("20", 1)]], false⟩,
        ["20", "NO TRANSACTION"]) := by
  decide

/-! ### Claim C4: the NO TRANSACTION error path is a no-op -/

/-- Claim C4: in any state with no open transaction (`inTransac` false,
both stacks nonempty — the state of every command history without
`BEGIN`), `ROLLBACK` and `COMMIT` each output `NO TRANSACTION` and leave
the whole state (both stacks and the flag) unchanged, and `ROLLBACK` can
be repeated any number of times, producing one `NO TRANSACTION` line per
repetition and the same unchanged state. -/
theorem noTransaction_error_is_noop (db : DB) (h : db.inTransac = false)
    (hx : db.xcts ≠ []) (hv : db.valueCounts ≠ []) :
    db.step Cmd.rollback = .ok (db, ["NO TRANSACTION"]) ∧
    db.step Cmd.commit = .ok (db, ["NO TRANSACTION"]) ∧
    ∀ n : Nat, runFrom db (List.replicate n Cmd.rollback) =
      .ok (db, List.replicate n "NO TRANSACTION") := by
  obtain ⟨X, V, b⟩ := db
  cases b with
  | true => exact Bool.noConfusion h
  | false =>
      obtain ⟨m, X', rfl⟩ := List.exists_cons_of_ne_nil hx
      obtain ⟨c, V', rfl⟩ := List.exists_cons_of_ne_nil hv
      have hcl := curLayer_false m X' c V'
      have hrb := step_rollback_err ⟨m :: X', c :: V', false⟩ m c hcl rfl
      have hcm := step_commit_err ⟨m :: X', c :: V', false⟩ m c hcl rfl
      refine ⟨hrb, hcm, ?_⟩
      intro n
      induction n with
      | zero => rfl
      | succ j ih =>
          rw [List.replicate_succ, List.replicate_succ]
          exact runFrom_cons_ok _ Cmd.rollback _ _ _ _ _ hrb ih

/-- Witness for C4 at the fresh store. -/
theorem noTransaction_error_is_noop_witness :
    DB.init.inTransac = false ∧ DB.init.xcts ≠ [] ∧ DB.init.valueCounts ≠ [] ∧
    (DB.init.step Cmd.rollback = .ok (DB.init, ["NO TRANSACTION"]) ∧
     DB.init.step Cmd.commit = .ok (DB.init, ["NO TRANSACTION"]) ∧
     ∀ n : Nat, runFrom DB.init (List.replicate n Cmd.rollback) =
       .ok (DB.init, List.replicate n "NO TRANSACTION")) :=
  ⟨rfl, by decide, by decide,
    noTransaction_error_is_noop DB.init rfl (by decide) (by decide)⟩

/-! ### Claim C5: rollback restores the prior binding -/

/-- Claim C5: in any state whose stacks are nonempty and whose snapshot
and count stacks are single layers whenever no transaction is open (the
shape of every state the protocol is meant to reach), running
`SET k v1; BEGIN; SET k v2; ROLLBACK; GET k` outputs exactly `v1`: the
rollback restores the binding `k -> v1` that held before the `BEGIN`. -/
theorem rollback_restores_prior_binding (db : DB) (k v1 v2 : String)
    (hx : db.xcts ≠ []) (hv : db.valueCounts ≠ [])
    (hlen : db.inTransac = false →
      db.xcts.length = 1 ∧ db.valueCounts.length = 1) :
    ∃ db2, runFrom db
        [Cmd.set k v1, Cmd.begin, Cmd.set k v2, Cmd.rollback, Cmd.get k] =
      .ok (db2, [v1]) := by
  obtain ⟨X, V, b⟩ := db
  cases b with
  | false =>
      obtain ⟨h1, h2⟩ := hlen rfl
      obtain ⟨m, rfl⟩ := List.length_eq_one.mp h1
      obtain ⟨c, rfl⟩ := List.length_eq_one.mp h2
      rcases hset1 : set m c k v1 with ⟨m1, c1⟩
      rcases hset2 : set m1 c1 k v2 with ⟨m2, c2⟩
      have hm1 : m1 = dinsert m k (some v1) := by
        rw [← set_fst m c k v1, hset1]
      have hg : get m1 k = v1 := by rw [hm1, get_dinsert_self]
      have e1 : DB.step ⟨[m], [c], false⟩ (Cmd.set k v1) =
          .ok (⟨[m1], [c1], false⟩, []) := by
        rw [step_set ⟨[m], [c], false⟩ m c (curLayer_false m [] c []) k v1,
          hset1]
        rfl
      have e2 : DB.step ⟨[m1], [c1], false⟩ Cmd.begin =
          .ok (⟨[m1, m1], [c1, c1], true⟩, []) := by
        rw [step_begin ⟨[m1], [c1], false⟩ m1 c1 m1 c1
          (curLayer_false m1 [] c1 []) rfl rfl]
        rfl
      have e3 : DB.step ⟨[m1, m1], [c1, c1], true⟩ (Cmd.set k v2) =
          .ok (⟨[m1, m2], [c1, c2], true⟩, []) := by
        rw [step_set ⟨[m1, m1], [c1, c1], true⟩ m1 c1
          (curLayer_true [m1, m1] [c1, c1] m1 c1 rfl rfl) k v2, hset2]
        rfl
      have e4 : DB.step ⟨[m1, m2], [c1, c2], true⟩ Cmd.rollback =
          .ok (⟨[m1], [c1], true⟩, []) := by
        rw [step_rollback_pop ⟨[m1, m2], [c1, c2], true⟩ m2 c2
          (curLayer_true [m1, m2] [c1, c2] m2 c2 rfl rfl) rfl]
        rfl
      have e5 : DB.step ⟨[m1], [c1], true⟩ (Cmd.get k) =
          .ok (⟨[m1], [c1], true⟩, [v1]) := by
        rw [step_get ⟨[m1], [c1], true⟩ m1 c1
          (curLayer_true [m1] [c1] m1 c1 rfl rfl) k, hg]
      have e6 : runFrom ⟨[m1], [c1], true⟩ ([] : List Cmd) =
          .ok (⟨[m1], [c1], true⟩, ([] : List String)) := rfl
      exact ⟨⟨[m1], [c1], true⟩,
        runFrom_cons_ok _ _ _ _ _ _ _ e1
          (runFrom_cons_ok _ _ _ _ _ _ _ e2
            (runFrom_cons_ok _ _ _ _ _ _ _ e3
              (runFrom_cons_ok _ _ _ _ _ _ _ e4
                (runFrom_cons_ok _ _ _ _ _ _ _ e5 e6))))⟩
  | true =>
      rcases List.eq_nil_or_concat X with rfl | ⟨XL, mt, rfl⟩
      · exact absurd rfl hx
      rcases List.eq_nil_or_concat V with rfl | ⟨VL, ct, rfl⟩
      · exact absurd rfl hv
      simp only [List.concat_eq_append]
      rcases hset1 : set mt ct k v1 with ⟨m1, c1⟩
      rcases hset2 : set m1 c1 k v2 with ⟨m2, c2⟩
      have hm1 : m1 = dinsert mt k (some v1) := by
        rw [← set_fst mt ct k v1, hset1]
      have hg : get m1 k = v1 := by rw [hm1, get_dinsert_self]
      have e1 : DB.step ⟨XL ++ [mt], VL ++ [ct], true⟩ (Cmd.set k v1) =
          .ok (⟨XL ++ [m1], VL ++ [c1], true⟩, []) := by
        rw [step_set ⟨XL ++ [mt], VL ++ [ct], true⟩ mt ct
          (curLayer_true _ _ mt ct (List.getLast?_concat XL)
            (List.getLast?_concat VL)) k v1, hset1]
        simp [writeCur, List.dropLast_concat]
      have e2 : DB.step ⟨XL ++ [m1], VL ++ [c1], true⟩ Cmd.begin =
          .ok (⟨(XL ++ [m1]) ++ [m1], (VL ++ [c1]) ++ [c1], true⟩, []) := by
        rw [step_begin ⟨XL ++ [m1], VL ++ [c1], true⟩ m1 c1 m1 c1
          (curLayer_true _ _ m1 c1 (List.getLast?_concat XL)
            (List.getLast?_concat VL))
          (List.getLast?_concat XL) (List.getLast?_concat VL)]
      have e3 : DB.step ⟨(XL ++ [m1]) ++ [m1], (VL ++ [c1]) ++ [c1], true⟩
          (Cmd.set k v2) =
          .ok (⟨(XL ++ [m1]) ++ [m2], (VL ++ [c1]) ++ [c2], true⟩, []) := by
        rw [step_set ⟨(XL ++ [m1]) ++ [m1], (VL ++ [c1]) ++ [c1], true⟩ m1 c1
          (curLayer_true _ _ m1 c1 (List.getLast?_concat (XL ++ [m1]))
            (List.getLast?_concat (VL ++ [c1]))) k v2, hset2]
        simp [writeCur, List.dropLast_concat]
      have e4 : DB.step ⟨(XL ++ [m1]) ++ [m2], (VL ++ [c1]) ++ [c2], true⟩
          Cmd.rollback = .ok (⟨XL ++ [m1], VL ++ [c1], true⟩, []) := by
        rw [step_rollback_pop ⟨(XL ++ [m1]) ++ [m2], (VL ++ [c1]) ++ [c2], true⟩
          m2 c2 (curLayer_true _ _ m2 c2 (List.getLast?_concat (XL ++ [m1]))
            (List.getLast?_concat (VL ++ [c1]))) rfl]
        simp [List.dropLast_concat]
      have e5 : DB.step ⟨XL ++ [m1], VL ++ [c1], true⟩ (Cmd.get k) =
          .ok (⟨XL ++ [m1], VL ++ [c1], true⟩, [v1]) := by
        rw [step_get ⟨XL ++ [m1], VL ++ [c1], true⟩ m1 c1
          (curLayer_true _ _ m1 c1 (List.getLast?_concat XL)
            (List.getLast?_concat VL)) k, hg]
      have e6 : runFrom ⟨XL ++ [m1], VL ++ [c1], true⟩ ([] : List Cmd) =
          .ok (⟨XL ++ [m1], VL ++ [c1], true⟩, ([] : List String)) := rfl
      exact ⟨⟨XL ++ [m1], VL ++ [c1], true⟩,
        runFrom_cons_ok _ _ _ _ _ _ _ e1
          (runFrom_cons_ok _ _ _ _ _ _ _ e2
            (runFrom_cons_ok _ _ _ _ _ _ _ e3
              (runFrom_cons_ok _ _ _ _ _ _ _ e4
                (runFrom_cons_ok _ _ _ _ _ _ _ e5 e6))))⟩

/-- Witness for C5 at the fresh store. -/
theorem rollback_restores_prior_binding_witness :
    ∃ db2, runFrom DB.init
        [Cmd.set "x" "1", Cmd.begin, Cmd.set "x" "2", Cmd.rollback,
          Cmd.get "x"] = .ok (db2, ["1"]) :=
  rollback_restores_prior_binding DB.init "x" "1" "2" (by decide) (by decide)
    (fun _ => ⟨rfl, rfl⟩)

/-! ### Claim C7: copy-on-push framing -/

theorem step_begin_inv (db db1 : DB) (o1 : List String)
    (h : db.step Cmd.begin = .ok (db1, o1)) :
    ∃ mt ct, db.xcts.getLast? = some mt ∧ db.valueCounts.getLast? = some ct ∧
      db1 = ⟨db.xcts ++ [mt], db.valueCounts ++ [ct], true⟩ ∧ o1 = [] := by
  simp only [DB.step] at h
  split at h
  · exact Except.noConfusion h
  · split at h
    all_goals try exact Except.noConfusion h
    rename_i mt ct hmt hct
    injection h with hh
    injection hh with ha hb
    exact ⟨mt, ct, hmt, hct, ha.symm, hb.symm⟩

theorem step_mut_frame (db : DB) (cmd : Cmd) (hmut : isDataMut cmd = true)
    (ht : db.inTransac = true) (db1 : DB) (out : List String)
    (h : db.step cmd = .ok (db1, out)) :
    db1.xcts.dropLast = db.xcts.dropLast ∧
    db1.valueCounts.dropLast = db.valueCounts.dropLast ∧
    db1.inTransac = true := by
  cases cmd with
  | set k v =>
      simp only [DB.step] at h
      split at h
      · exact Except.noConfusion h
      · injection h with hh
        injection hh with ha hb
        rw [← ha]
        refine ⟨?_, ?_, ?_⟩ <;> simp [writeCur, ht, List.dropLast_concat]
  | unset k =>
      simp only [DB.step] at h
      split at h
      · exact Except.noConfusion h
      · split at h
        · exact Except.noConfusion h
        · injection h with hh
          injection hh with ha hb
          rw [← ha]
          refine ⟨?_, ?_, ?_⟩ <;> simp [writeCur, ht, List.dropLast_concat]
  | get k => exact Bool.noConfusion hmut
  | numEqualTo v => exact Bool.noConfusion hmut
  | begin => exact Bool.noConfusion hmut
  | rollback => exact Bool.noConfusion hmut
  | commit => exact Bool.noConfusion hmut

theorem frame_run (cs : List Cmd) : ∀ db : DB,
    (∀ x ∈ cs, isDataMut x = true) → db.inTransac = true →
    ∀ (db2 : DB) (outs : List String), runFrom db cs = .ok (db2, outs) →
      db2.xcts.dropLast = db.xcts.dropLast ∧
      db2.valueCounts.dropLast = db.valueCounts.dropLast ∧
      db2.inTransac = true := by
  induction cs with
  | nil =>
      intro db _ ht db2 outs h
      unfold runFrom at h
      injection h with hh
      injection hh with ha hb
      rw [← ha]
      exact ⟨rfl, rfl, ht⟩
  | cons cmd rest ih =>
      intro db hall ht db2 outs h
      unfold runFrom at h
      split at h
      · exact Except.noConfusion h
      · rename_i db1 out1 hs
        split at h
        · exact Except.noConfusion h
        · rename_i db2x out2 hr
          injection h with hh
          injection hh with ha hb
          rw [← ha]
          have hstep := step_mut_frame db cmd (hall cmd (List.mem_cons_self _ _))
            ht db1 out1 hs
          have hrest := ih db1 (fun x hx => hall x (List.mem_cons_of_mem _ hx))
            hstep.2.2 db2x out2 hr
          exact ⟨hrest.1.trans hstep.1, hrest.2.1.trans hstep.2.1, hrest.2.2⟩

/-- Claim C7: after `begin` pushes a duplicate top layer, any sequence of
`set`/`unset` commands changes only that top layer: dropping the last
layer of the resulting stacks gives back exactly the snapshot stack and
count stack that existed before the `begin` — no lower layer's maps are
altered. -/
theorem begin_copy_frame (db db1 : DB) (o1 : List String)
    (hb : db.step Cmd.begin = .ok (db1, o1))
    (cs : List Cmd) (hcs : ∀ x ∈ cs, isDataMut x = true)
    (db2 : DB) (outs : List String) (hr : runFrom db1 cs = .ok (db2, outs)) :
    db2.xcts.dropLast = db.xcts ∧ db2.valueCounts.dropLast = db.valueCounts := by
  obtain ⟨mt, ct, hmt, hct, rfl, rfl⟩ := step_begin_inv db db1 o1 hb
  have hf := frame_run cs _ hcs rfl db2 outs hr
  constructor
  · rw [hf.1]
    exact List.dropLast_concat
  · rw [hf.2.1]
    exact List.dropLast_concat

/-- Witness for C7: begin from the fresh store, then one `SET` and one
`UNSET` on the new top layer; the lower layer stays the base layer of the
fresh store. -/
theorem begin_copy_frame_witness :
    (DB.mk [[], [("a", none)]] [[], [("1", 0)]] true).xcts.dropLast =
      DB.init.xcts ∧
    (DB.mk [[], [("a", none)]] [[], [("1", 0)]] true).valueCounts.dropLast =
      DB.init.valueCounts :=
  begin_copy_frame DB.init (DB.mk [[], []] [[], []] true) [] (by decide)
    [Cmd.set "a" "1", Cmd.unset "a"] (by decide)
    (DB.mk [[], [("a", none)]] [[], [("1", 0)]] true) [] (by decide)

/-! ### Claims C8, C9, C10: the per-layer data operations -/

theorem unset_eq_missing (m : Snap) (c : Counts) (name : String)
    (hn : dlookup m name = none) :
    unset m c name = .error PyErr.keyError := by
  simp only [unset, hn]

theorem unset_eq_sentinel (m : Snap) (c : Counts) (name : String)
    (hs : dlookup m name = some none) :
    unset m c name = .ok (dinsert m name none, c) := by
  simp only [unset, hs]

theorem unset_eq_value (m : Snap) (c : Counts) (name s : String) (n : Int)
    (hs : dlookup m name = some (some s)) (hc : dlookup c s = some n) :
    unset m c name = .ok (dinsert m name none, dinsert c s (n - 1)) := by
  simp only [unset, hs, hc]

/-- Claim C8: `get` outputs the mapped value when the key maps to a real
value in the current snapshot, outputs `NULL` when the key is absent or
explicitly unset (mapped to the sentinel), and leaves the whole store
state unchanged in every case. -/
theorem get_reports_value_without_mutation (db : DB) (m : Snap) (c : Counts)
    (name : String) (hcl : curLayer db = some (m, c)) :
    db.step (Cmd.get name) = .ok (db, [get m name]) ∧
    (∀ v : String, dlookup m name = some (some v) → get m name = v) ∧
    (dlookup m name = none → get m name = "NULL") ∧
    (dlookup m name = some none → get m name = "NULL") := by
  refine ⟨step_get db m c hcl name, ?_, ?_, ?_⟩
  · intro v hv
    simp only [get, hv]
  · intro hv
    simp only [get, hv]
  · intro hv
    simp only [get, hv]

/-- Witness for C8 on a concrete two-key layer. -/
theorem get_reports_value_without_mutation_witness :
    (DB.mk [[("k", some "7"), ("u", none)]] [[("7", 1)]] false).step
        (Cmd.get "k") =
      .ok (DB.mk [[("k", some "7"), ("u", none)]] [[("7", 1)]] false,
        [get [("k", some "7"), ("u", none)] "k"]) ∧
    (∀ v : String, dlookup [("k", some "7"), ("u", none)] "k" = some (some v) →
      get [("k", some "7"), ("u", none)] "k" = v) ∧
    (dlookup [("k", some "7"), ("u", none)] "k" = none →
      get [("k", some "7"), ("u", none)] "k" = "NULL") ∧
    (dlookup [("k", some "7"), ("u", none)] "k" = some none →
      get [("k", some "7"), ("u", none)] "k" = "NULL") :=
  get_reports_value_without_mutation
    (DB.mk [[("k", some "7"), ("u", none)]] [[("7", 1)]] false)
    [("k", some "7"), ("u", none)] [("7", 1)] "k" (by decide)

/-- Claim C9: `unset` on a key absent from the current snapshot raises
`KeyError` rather than completing; on a key present with a real
(non-sentinel) value whose count entry exists, it rebinds the key to the
sentinel and decrements that value's count; on a key already at the
sentinel it only rebinds the key, touching no count. -/
theorem unset_missing_key_faults (db : DB) (m : Snap) (c : Counts)
    (name : String) (hcl : curLayer db = some (m, c)) :
    (dlookup m name = none →
      db.step (Cmd.unset name) = .error PyErr.keyError) ∧
    (∀ (s : String) (n : Int), dlookup m name = some (some s) →
      dlookup c s = some n →
      db.step (Cmd.unset name) =
        .ok (writeCur db (dinsert m name none) (dinsert c s (n - 1)), [])) ∧
    (dlookup m name = some none →
      db.step (Cmd.unset name) =
        .ok (writeCur db (dinsert m name none) c, [])) := by
  refine ⟨?_, ?_, ?_⟩
  · intro hn
    rw [step_unset db m c hcl name, unset_eq_missing m c name hn]
  · intro s n hs hc2
    rw [step_unset db m c hcl name, unset_eq_value m c name s n hs hc2]
  · intro hs
    rw [step_unset db m c hcl name, unset_eq_sentinel m c name hs]

/-- Witness for C9 on a concrete layer holding one set key and one
sentinel key. -/
theorem unset_missing_key_faults_witness :
    (dlookup [("k", some "7"), ("u", none)] "k2" = none →
      (DB.mk [[("k", some "7"), ("u", none)]] [[("7", 1)]] false).step
        (Cmd.unset "k2") = .error PyErr.keyError) ∧
    (∀ (s : String) (n : Int),
      dlookup [("k", some "7"), ("u", none)] "k2" = some (some s) →
      dlookup [("7", 1)] s = some n →
      (DB.mk [[("k", some "7"), ("u", none)]] [[("7", 1)]] false).step
        (Cmd.unset "k2") =
        .ok (writeCur (DB.mk [[("k", some "7"), ("u", none)]] [[("7", 1)]] false)
          (dinsert [("k", some "7"), ("u", none)] "k2" none)
          (dinsert [("7", 1)] s (n - 1)), [])) ∧
    (dlookup [("k", some "7"), ("u", none)] "k2" = some none →
      (DB.mk [[("k", some "7"), ("u", none)]] [[("7", 1)]] false).step
        (Cmd.unset "k2") =
        .ok (writeCur (DB.mk [[("k", some "7"), ("u", none)]] [[("7", 1)]] false)
          (dinsert [("k", some "7"), ("u", none)] "k2" none) [("7", 1)], [])) :=
  unset_missing_key_faults
    (DB.mk [[("k", some "7"), ("u", none)]] [[("7", 1)]] false)
    [("k", some "7"), ("u", none)] [("7", 1)] "k2" (by decide)

/-- Claim C10: `set` on a key that already holds the very value being set
still increments that value's count entry; consequently from the empty
store `SET a 10; SET a 10; NUMEQUALTO 10` outputs `2` although exactly
one key holds the value `10`. -/
theorem set_same_value_still_increments (db : DB) (m : Snap) (c : Counts)
    (k v : String) (n : Int) (hcl : curLayer db = some (m, c))
    (hm : dlookup m k = some (some v)) (hc : dlookup c v = some n) :
    db.step (Cmd.set k v) =
      .ok (writeCur db (dinsert m k (some v)) (dinsert c v (n + 1)), []) ∧
    runCmds [Cmd.set "a" "10", Cmd.set "a" "10", Cmd.numEqualTo "10"] =
      .ok (⟨[[("a", some "10")]], [[("10", 2)]], false⟩, ["2"]) ∧
    countVal [("a", some "10")] "10" = 1 := by
  refine ⟨?_, by decide, by decide⟩
  have hset : set m c k v = (dinsert m k (some v), dinsert c v (n + 1)) := by
    simp [set, hm, hc]
  rw [step_set db m c hcl k v, hset]

/-- Witness for C10 on the one-key layer produced by `SET a 10`. -/
theorem set_same_value_still_increments_witness :
    (DB.mk [[("a", some "10")]] [[("10", 1)]] false).step (Cmd.set "a" "10") =
      .ok (writeCur (DB.mk [[("a", some "10")]] [[("10", 1)]] false)
        (dinsert [("a", some "10")] "a" (some "10"))
        (dinsert [("10", 1)] "10" (1 + 1)), []) ∧
    runCmds [Cmd.set "a" "10", Cmd.set "a" "10", Cmd.numEqualTo "10"] =
      .ok (⟨[[("a", some "10")]], [[("10", 2)]], false⟩, ["2"]) ∧
    countVal [("a", some "10")] "10" = 1 :=
  set_same_value_still_increments
    (DB.mk [[("a", some "10")]] [[("10", 1)]] false)
    [("a", some "10")] [("10", 1)] "a" "10" 1 (by decide) (by decide) (by decide)

end MyDB





